import Mathlib

/-! # Verification of the realtor Playwright replay script

Shallow embedding of the three routines of
`playwright_scripts/realtor_playwright_script.py` that the specification
describes: the sensitive-data placeholder substitution
(`replace_sensitive_data`, lines 21-28), the selector-fallback action
executor (`_try_locate_and_act`, lines 38-110) and the top-level runner
(`run_generated_script`, lines 113-202).

Strings are modelled as `List Char` (`Str`). The Python string
operations the source uses (`str.replace`, `str.split` with and without
a count, `str.startswith`, `'/'.join`) are embedded below with Python's
semantics. The browser driver is abstracted as an `Oracle` of Boolean
callbacks saying whether a click / fill / clear on a given selector
succeeds; the executor is then a pure function returning the trace of
attempted selectors, the document operations performed (with their
timeouts and the fixed waits), and the final outcome.
-/

namespace RealtorScript

/-- Python strings, modelled as lists of characters. -/
abbrev Str := List Char

/-- One scan of Python `s.replace(pat, rep)`: left to right,
non-overlapping, resuming after the end of each match. The `fuel`
argument serves only structural termination and every caller passes
`fuel = s.length`, which suffices because in this development `pat` is
always the non-empty literal `<secret>NAME</secret>` (Python's special
behaviour for an empty pattern is therefore not modelled). -/
def replaceGo (pat rep : Str) : Nat → Str → Str
  | _, [] => []
  | 0, s => s
  | fuel + 1, c :: rest =>
    if pat.isPrefixOf (c :: rest) then
      rep ++ replaceGo pat rep fuel ((c :: rest).drop pat.length)
    else
      c :: replaceGo pat rep fuel rest

/-- Python `text.replace(pat, rep)` for the non-empty patterns used by
`replace_sensitive_data`. -/
def pyReplace (pat rep text : Str) : Str := replaceGo pat rep text.length text

/-- The tagged placeholder `f'<secret>{{placeholder}}</secret>'` built on
source line 27 (braces shown doubled here only for the comment). -/
def mkPattern (placeholder : Str) : Str :=
  "<secret>".data ++ placeholder ++ "</secret>".data

/-- `replace_sensitive_data(text, sensitive_map)` (source lines 21-28):
iterates over the mapping entries in order (Python dictionaries iterate
in insertion order, so the mapping is an association list) and replaces
every occurrence of the tagged placeholder of each key by its value; a
`None` value is replaced by the empty string
(`str(value) if value is not None else ''`). The `isinstance` guard on
line 23 is vacuous here since the text argument is a string. -/
def replace_sensitive_data (text : Str) (sensitive_map : List (Str × Option Str)) : Str :=
  sensitive_map.foldl (fun t kv => pyReplace (mkPattern kv.1) (kv.2.getD []) t) text

/-- Whether `pat` occurs as a contiguous substring of `s`: exactly the
condition under which Python `s.replace(pat, rep)` changes `s`. -/
def occursIn (pat : Str) : Str → Bool
  | [] => decide (pat = [])
  | c :: rest => pat.isPrefixOf (c :: rest) || occursIn pat rest

/-- Python `s.split(sep, 1)` for a single-character separator: at most
one split, at the first occurrence of the separator (source line 72,
`selector.split('=', 1)`). -/
def splitOnce (sep : Char) : Str → List Str
  | [] => [[]]
  | c :: rest =>
    if c = sep then [[], rest]
    else
      match splitOnce sep rest with
      | [] => [[c]]
      | first :: others => (c :: first) :: others

/-- Python `s.split(sep)` for a single-character separator, keeping
empty parts (source line 79, `xpath.split('/')`). -/
def splitAll (sep : Char) : Str → List Str
  | [] => [[]]
  | c :: rest =>
    if c = sep then [] :: splitAll sep rest
    else
      match splitAll sep rest with
      | [] => [[c]]
      | first :: others => (c :: first) :: others

/-- `[seg for seg in xpath.split('/') if seg]` (source line 79): the
non-empty slash-separated segments of an XPath string. -/
def pathSegments (xpath : Str) : List Str :=
  (splitAll '/' xpath).filter (fun seg => seg ≠ [])

/-- `MAX_FALLBACKS = 50` (source line 45). -/
def MAX_FALLBACKS : Nat := 50

/-- `INITIAL_TIMEOUT = 10000` milliseconds (source line 47). -/
def INITIAL_TIMEOUT : Nat := 10000

/-- `FALLBACK_TIMEOUT = 1000` milliseconds (source line 48). -/
def FALLBACK_TIMEOUT : Nat := 1000

/-- A document operation performed by the executor: a click, fill or
clear issued to the driver with its timeout, or a fixed wait
(`page.wait_for_timeout`). -/
inductive Op where
  | click (sel : Str) (timeout : Nat)
  | fill (sel : Str) (text : Str) (timeout : Nat)
  | clear (sel : Str) (timeout : Nat)
  | wait (ms : Nat)
deriving DecidableEq

/-- Outcome of `_try_locate_and_act`. The error constructors correspond
to the four `raise PlaywrightActionError` sites and carry the data
interpolated into each message: `errNonXpath` is the non-XPath failure
on lines 68-70, `errNoXpathString` the guard on lines 74-76,
`errExhausted` the exhaustion error on lines 105-107 (whose message
reports the constant `MAX_FALLBACKS`, not the number of attempts
actually made), and `errUnexpected` the final safeguard on line 110. -/
inductive ExecResult where
  | ok
  | errNonXpath (action sel stepInfo : Str)
  | errNoXpathString (action sel stepInfo : Str)
  | errExhausted (action : Str) (reportedFallbacks : Nat) (origSel stepInfo : Str)
  | errUnexpected (action origSel stepInfo : Str)
deriving DecidableEq

/-- Abstraction of the browser driver: whether a click, fill or clear on
the first element matching a given selector succeeds (an exception from
the driver is a `false`). -/
structure Oracle where
  click : Str → Bool
  fill : Str → Bool
  clear : Str → Bool

/-- The log of one executor call: the selectors attempted in order (the
original first, then each fallback selector), the document operations
performed with their timeouts and waits, and the final outcome. -/
structure ExecLog where
  attempts : List Str
  ops : List Op
  result : ExecResult
deriving DecidableEq

/-- The initial attempt (source lines 50-61): `click` with the long
timeout, else `fill` when `text is not None`, else the invalid-action
`PlaywrightActionError` raised on line 58 — which the `except` on line
62 catches, so an invalid action is simply a failed attempt performing
no document operation. Returns the operations attempted and whether the
attempt succeeded. -/
def initialAttempt (o : Oracle) (selector action : Str) (text : Option Str) : List Op × Bool :=
  if action = "click".data then
    ([Op.click selector INITIAL_TIMEOUT], o.click selector)
  else if action = "fill".data ∧ text.isSome then
    ([Op.fill selector (text.getD []) INITIAL_TIMEOUT], o.fill selector)
  else
    ([], false)

/-- One fallback attempt (source lines 86-100): `click` with the short
timeout; for `fill` first a best-effort clear whose failure skips the
100 ms wait but is otherwise ignored, then the fill; for any other
action kind neither branch runs, so no exception is raised and the
attempt counts as successful without touching the document. -/
def fallbackAttempt (o : Oracle) (fsel action : Str) (text : Option Str) : List Op × Bool :=
  if action = "click".data then
    ([Op.click fsel FALLBACK_TIMEOUT], o.click fsel)
  else if action = "fill".data ∧ text.isSome then
    ((if o.clear fsel then [Op.clear fsel FALLBACK_TIMEOUT, Op.wait 100]
      else [Op.clear fsel FALLBACK_TIMEOUT])
      ++ [Op.fill fsel (text.getD []) FALLBACK_TIMEOUT], o.fill fsel)
  else
    ([], true)

/-- The fallback loop (source lines 81-107):
`for i in range(1, min(MAX_FALLBACKS + 1, len(segments)))`, modelled
with `fuel` remaining iterations (the top-level call passes
`fuel = min (MAX_FALLBACKS + 1) segments.length - 1`, the size of the
Python range). Iteration `i` tries
`'xpath=//' + '/'.join(segments[i:])`; on success it waits 500 ms and
stops; on failure it raises the exhaustion error only when
`i == MAX_FALLBACKS` (line 103). Falling off the end of the loop
reaches the safeguard `raise` on line 110. -/
def fallbackLoop (o : Oracle) (action : Str) (text : Option Str) (segments : List Str)
    (origSel stepInfo : Str) : Nat → Nat → List Str × List Op × ExecResult
  | _, 0 => ([], [], ExecResult.errUnexpected action origSel stepInfo)
  | i, fuel + 1 =>
    let fsel := "xpath=//".data ++ List.intercalate ['/'] (segments.drop i)
    let att := fallbackAttempt o fsel action text
    if att.2 then
      ([fsel], att.1 ++ [Op.wait 500], ExecResult.ok)
    else if i = MAX_FALLBACKS then
      ([fsel], att.1, ExecResult.errExhausted action MAX_FALLBACKS origSel stepInfo)
    else
      let rest := fallbackLoop o action text segments origSel stepInfo (i + 1) fuel
      (fsel :: rest.1, att.1 ++ rest.2.1, rest.2.2)

/-- `_try_locate_and_act(page, selector, action_type, text, step_info)`
(source lines 38-110), as a pure function of the driver oracle. On
initial success: wait 500 ms and return. On initial failure: a selector
without the `xpath=` marker fails immediately (lines 66-70); otherwise
the XPath string is everything after the first `=` (lines 72-77, the
`len < 2` guard being unreachable once `startswith('xpath=')` holds),
its non-empty segments are computed, and the fallback loop runs. -/
def tryLocateAndAct (o : Oracle) (selector action : Str) (text : Option Str)
    (stepInfo : Str) : ExecLog :=
  let init := initialAttempt o selector action text
  if init.2 then
    { attempts := [selector], ops := init.1 ++ [Op.wait 500], result := ExecResult.ok }
  else if "xpath=".data.isPrefixOf selector = false then
    { attempts := [selector], ops := init.1,
      result := ExecResult.errNonXpath action selector stepInfo }
  else
    let parts := splitOnce '=' selector
    if parts.length < 2 then
      { attempts := [selector], ops := init.1,
        result := ExecResult.errNoXpathString action selector stepInfo }
    else
      let segments := pathSegments (parts.getD 1 [])
      let fb := fallbackLoop o action text segments selector stepInfo 1
        (min (MAX_FALLBACKS + 1) segments.length - 1)
      { attempts := selector :: fb.1, ops := init.1 ++ fb.2.1, result := fb.2.2 }

/-- The driver oracle on which every attempt fails. -/
def failOracle : Oracle where
  click := fun _ => false
  fill := fun _ => false
  clear := fun _ => false

/-- The driver oracle for the trim-level-1 scenario: the click succeeds
exactly on the fallback selector `xpath=//b/c/d`. -/
def levelOneOracle : Oracle where
  click := fun s => decide (s = "xpath=//b/c/d".data)
  fill := fun _ => false
  clear := fun _ => false

/-- Modelled from the spec: an "absolute path-style" selector — a
locator carrying the `xpath=` marker whose path is "anchored at the
document root via an explicit path" (spec glossary), i.e. the path
begins with `/`. Used only to compare the invariant stated by the spec
with the code's `startswith('xpath=')` test. -/
def specAbsolutePathStyle (sel : Str) : Bool :=
  List.isPrefixOf "xpath=/".data sel

/-- Outcome of one scripted action, as observed by the `try` block of
`run_generated_script`: success, a `PlaywrightActionError`, or any
other exception. -/
inductive StepOutcome where
  | ok
  | actionError
  | otherError
deriving DecidableEq

/-- The action sequence of the `try` block: actions run in order and the
first failing one raises, aborting the remainder. Returns the number of
actions attempted and the outcome of the first failing one, if any. -/
def runBody : List StepOutcome → Nat × Option StepOutcome
  | [] => (0, none)
  | StepOutcome.ok :: rest => ((runBody rest).1 + 1, (runBody rest).2)
  | s :: _ => (1, some s)

/-- Observable outcome of `run_generated_script`: how many actions were
attempted, the process exit code, whether each of the two closes in the
`finally` block was attempted, whether each merely warned, and whether
any cleanup failure escaped. -/
structure RunResult where
  stepsAttempted : Nat
  exitCode : Nat
  ctxCloseAttempted : Bool
  browserCloseAttempted : Bool
  ctxCloseWarned : Bool
  browserCloseWarned : Bool
  cleanupErrorPropagated : Bool
deriving DecidableEq

/-- `run_generated_script` (source lines 113-202): the `try` block runs
the actions in order; `except PlaywrightActionError` (line 181) and
`except Exception` (line 184) both set `exit_code = 1`; the `finally`
block (lines 189-202) attempts both closes on every exit path, each
wrapped in its own `try/except` that only prints a warning, so a
cleanup failure is logged but never escapes or changes the exit code. -/
def run_generated_script (steps : List StepOutcome) (ctxCloseFails browserCloseFails : Bool) :
    RunResult :=
  let body := runBody steps
  let exitCode : Nat :=
    match body.2 with
    | none => 0
    | some _ => 1
  { stepsAttempted := body.1, exitCode := exitCode,
    ctxCloseAttempted := true, browserCloseAttempted := true,
    ctxCloseWarned := ctxCloseFails, browserCloseWarned := browserCloseFails,
    cleanupErrorPropagated := false }

/-! ## Lemmas about the placeholder substitution -/

theorem replaceGo_nil (pat rep : Str) (fuel : Nat) : replaceGo pat rep fuel [] = [] := by
  cases fuel <;> rfl

theorem replaceGo_of_not_occurs (pat rep : Str) :
    ∀ (s : Str) (fuel : Nat), s.length ≤ fuel → occursIn pat s = false →
      replaceGo pat rep fuel s = s
  | [], fuel, _, _ => replaceGo_nil pat rep fuel
  | c :: rest, fuel, hlen, hocc => by
    have hpre : pat.isPrefixOf (c :: rest) = false := by
      simp [occursIn] at hocc
      exact hocc.1
    have hrest : occursIn pat rest = false := by
      simp [occursIn] at hocc
      exact hocc.2
    obtain ⟨f, rfl⟩ : ∃ f, fuel = f + 1 := by
      cases fuel with
      | zero => simp at hlen
      | succ f => exact ⟨f, rfl⟩
    have hlen' : rest.length ≤ f := by
      simp at hlen
      omega
    simp only [replaceGo, hpre]
    simp [replaceGo_of_not_occurs pat rep rest f hlen' hrest]

theorem pyReplace_of_not_occurs (pat rep s : Str) (hocc : occursIn pat s = false) :
    pyReplace pat rep s = s :=
  replaceGo_of_not_occurs pat rep s s.length (Nat.le_refl _) hocc

theorem replace_sensitive_data_fixed :
    ∀ (m : List (Str × Option Str)) (t : Str),
      (∀ kv ∈ m, occursIn (mkPattern kv.1) t = false) →
      replace_sensitive_data t m = t
  | [], _, _ => rfl
  | kv :: rest, t, h => by
    have h1 : pyReplace (mkPattern kv.1) (kv.2.getD []) t = t :=
      pyReplace_of_not_occurs _ _ _ (h kv (by simp))
    have h2 := replace_sensitive_data_fixed rest t (fun kv' hkv' => h kv' (by simp [hkv']))
    simpa [replace_sensitive_data, h1] using h2

/-! ## Lemmas about the fallback executor -/

theorem splitOnce_xpath (p : Str) :
    splitOnce '=' ('x' :: 'p' :: 'a' :: 't' :: 'h' :: '=' :: p)
      = [['x', 'p', 'a', 't', 'h'], p] := rfl

theorem isPrefixOf_xpath (p : Str) :
    List.isPrefixOf ['x', 'p', 'a', 't', 'h', '='] ('x' :: 'p' :: 'a' :: 't' :: 'h' :: '=' :: p)
      = true := by
  simp [List.isPrefixOf]

theorem fallbackLoop_length_le (o : Oracle) (action : Str) (text : Option Str)
    (segments : List Str) (origSel stepInfo : Str) (fuel : Nat) :
    ∀ i, (fallbackLoop o action text segments origSel stepInfo i fuel).1.length ≤ fuel := by
  induction fuel with
  | zero => intro i; simp [fallbackLoop]
  | succ fuel ih =>
    intro i
    simp only [fallbackLoop]
    split
    · simp
    · split
      · simp
      · have := ih (i + 1)
        simp only [List.length_cons]
        omega

theorem fallbackLoop_ne_nil (o : Oracle) (action : Str) (text : Option Str)
    (segments : List Str) (origSel stepInfo : Str) (fuel i : Nat) :
    1 ≤ (fallbackLoop o action text segments origSel stepInfo i (fuel + 1)).1.length := by
  simp only [fallbackLoop]
  split
  · simp
  · split
    · simp
    · simp

theorem fallbackLoop_result_ne_ok (o : Oracle) (action : Str) (text : Option Str)
    (segments : List Str) (origSel stepInfo : Str)
    (hfail : ∀ fsel, (fallbackAttempt o fsel action text).2 = false) (fuel : Nat) :
    ∀ i, (fallbackLoop o action text segments origSel stepInfo i fuel).2.2
      ≠ ExecResult.ok := by
  induction fuel with
  | zero => intro i; simp [fallbackLoop]
  | succ fuel ih =>
    intro i
    simp only [fallbackLoop, hfail, Bool.false_eq_true, if_false]
    split
    · simp
    · exact ih (i + 1)

theorem fallbackLoop_trace (o : Oracle) (action : Str) (text : Option Str)
    (segments : List Str) (origSel stepInfo : Str)
    (hfail : ∀ fsel, (fallbackAttempt o fsel action text).2 = false) (fuel : Nat) :
    ∀ i, i + fuel ≤ MAX_FALLBACKS + 1 →
      (fallbackLoop o action text segments origSel stepInfo i fuel).1 =
        (List.range' i fuel).map
          (fun j => "xpath=//".data ++ List.intercalate ['/'] (segments.drop j)) := by
  induction fuel with
  | zero => intro i _; simp [fallbackLoop]
  | succ fuel ih =>
    intro i hle
    simp only [fallbackLoop, hfail, Bool.false_eq_true, if_false]
    by_cases hi : i = MAX_FALLBACKS
    · have hfuel : fuel = 0 := by
        simp [MAX_FALLBACKS] at hle hi ⊢
        omega
      subst hfuel
      rw [if_pos hi]
      simp [List.range'_succ]
    · rw [if_neg hi]
      simp only [List.range'_succ, List.map_cons]
      rw [ih (i + 1) (by omega)]

theorem fallbackLoop_invalid_action (o : Oracle) (action : Str) (text : Option Str)
    (segments : List Str) (origSel stepInfo : Str) (fuel i : Nat)
    (hatt : ∀ fsel, fallbackAttempt o fsel action text = ([], true)) :
    fallbackLoop o action text segments origSel stepInfo i (fuel + 1) =
      (["xpath=//".data ++ List.intercalate ['/'] (segments.drop i)], [Op.wait 500],
        ExecResult.ok) := by
  simp [fallbackLoop, hatt]

theorem tryLocateAndAct_xpath_fail (o : Oracle) (p action : Str) (text : Option Str)
    (si : Str) (hinit : (initialAttempt o ("xpath=".data ++ p) action text).2 = false) :
    tryLocateAndAct o ("xpath=".data ++ p) action text si =
      { attempts := ("xpath=".data ++ p) ::
          (fallbackLoop o action text (pathSegments p) ("xpath=".data ++ p) si 1
            (min (MAX_FALLBACKS + 1) (pathSegments p).length - 1)).1,
        ops := (initialAttempt o ("xpath=".data ++ p) action text).1 ++
          (fallbackLoop o action text (pathSegments p) ("xpath=".data ++ p) si 1
            (min (MAX_FALLBACKS + 1) (pathSegments p).length - 1)).2.1,
        result := (fallbackLoop o action text (pathSegments p) ("xpath=".data ++ p) si 1
          (min (MAX_FALLBACKS + 1) (pathSegments p).length - 1)).2.2 } := by
  have hinit' :
      (initialAttempt o ('x' :: 'p' :: 'a' :: 't' :: 'h' :: '=' :: p) action text).2 = false := by
    simpa using hinit
  simp [tryLocateAndAct, hinit', splitOnce_xpath, isPrefixOf_xpath]

theorem initialAttempt_fail_of_oracle (o : Oracle) (sel action : Str) (text : Option Str)
    (hc : ∀ s, o.click s = false) (hf : ∀ s, o.fill s = false) :
    (initialAttempt o sel action text).2 = false := by
  simp only [initialAttempt]
  split
  · exact hc sel
  · split
    · exact hf sel
    · rfl

theorem fallbackAttempt_fail_of_oracle (o : Oracle) (action : Str) (text : Option Str)
    (hc : ∀ s, o.click s = false) (hf : ∀ s, o.fill s = false)
    (hact : action = "click".data ∨ (action = "fill".data ∧ text.isSome = true)) :
    ∀ fsel, (fallbackAttempt o fsel action text).2 = false := by
  intro fsel
  rcases hact with h | ⟨h1, h2⟩
  · simp [fallbackAttempt, h, hc]
  · simp [fallbackAttempt, h1, h2, hf]

theorem initialAttempt_invalid (o : Oracle) (sel action : Str) (text : Option Str)
    (hclick : action ≠ "click".data) (hfill : action = "fill".data → text = none) :
    initialAttempt o sel action text = ([], false) := by
  by_cases hf : action = "fill".data
  · simp [initialAttempt, hclick, hf, hfill hf]
  · simp [initialAttempt, hclick, hf]

theorem fallbackAttempt_invalid (o : Oracle) (action : Str) (text : Option Str)
    (hclick : action ≠ "click".data) (hfill : action = "fill".data → text = none) :
    ∀ fsel, fallbackAttempt o fsel action text = ([], true) := by
  intro fsel
  by_cases hf : action = "fill".data
  · simp [fallbackAttempt, hclick, hf, hfill hf]
  · simp [fallbackAttempt, hclick, hf]

/-! ## Lemmas about the script runner -/

theorem runBody_none_iff : ∀ (steps : List StepOutcome),
    (runBody steps).2 = none ↔ ∀ s ∈ steps, s = StepOutcome.ok
  | [] => by simp [runBody]
  | s :: rest => by
    cases s with
    | ok => simp [runBody, runBody_none_iff rest]
    | actionError => simp [runBody]
    | otherError => simp [runBody]

theorem runBody_first_fail : ∀ (pre : List StepOutcome) (bad : StepOutcome)
    (post : List StepOutcome), (∀ s ∈ pre, s = StepOutcome.ok) → bad ≠ StepOutcome.ok →
    runBody (pre ++ bad :: post) = (pre.length + 1, some bad)
  | [], bad, post, _, hbad => by
    cases bad with
    | ok => exact absurd rfl hbad
    | actionError => rfl
    | otherError => rfl
  | s :: pre, bad, post, h, hbad => by
    have hs : s = StepOutcome.ok := h s (by simp)
    subst hs
    have hrec := runBody_first_fail pre bad post (fun s hs => h s (by simp [hs])) hbad
    simp [runBody, hrec]

/-! ## Claim theorems -/

/-- C1: for a locator carrying the `xpath=` marker whose path has `k`
non-empty segments, with driver callbacks on which every attempt fails
and a valid action kind, the executor makes at most
`min MAX_FALLBACKS (k - 1) + 1` attempts (the initial attempt plus at
most `min MAX_FALLBACKS (k - 1)` fallbacks) and then fails. -/
theorem attempts_bounded_all_fail (o : Oracle) (p action : Str) (text : Option Str) (si : Str)
    (hc : ∀ s, o.click s = false) (hf : ∀ s, o.fill s = false)
    (hact : action = "click".data ∨ (action = "fill".data ∧ text.isSome = true)) :
    (tryLocateAndAct o ("xpath=".data ++ p) action text si).attempts.length
        ≤ min MAX_FALLBACKS ((pathSegments p).length - 1) + 1 ∧
      (tryLocateAndAct o ("xpath=".data ++ p) action text si).result ≠ ExecResult.ok := by
  have hinit := initialAttempt_fail_of_oracle o ("xpath=".data ++ p) action text hc hf
  have hfail := fallbackAttempt_fail_of_oracle o action text hc hf hact
  rw [tryLocateAndAct_xpath_fail o p action text si hinit]
  refine ⟨?_, ?_⟩
  · have h2 : (fallbackLoop o action text (pathSegments p) ("xpath=".data ++ p) si 1
        (min (MAX_FALLBACKS + 1) (pathSegments p).length - 1)).1.length
          ≤ min MAX_FALLBACKS ((pathSegments p).length - 1) :=
      le_trans
        (fallbackLoop_length_le o action text (pathSegments p) ("xpath=".data ++ p) si
          (min (MAX_FALLBACKS + 1) (pathSegments p).length - 1) 1)
        (by simp only [MAX_FALLBACKS]; omega)
    exact Nat.succ_le_succ h2
  · exact fallbackLoop_result_ne_ok o action text (pathSegments p) ("xpath=".data ++ p) si
      hfail _ 1

/-- Witness for C1 at the locator `xpath=//a/b/c/d` with the always-fail
oracle and a click action. -/
theorem attempts_bounded_all_fail_witness :
    (tryLocateAndAct failOracle ("xpath=".data ++ "//a/b/c/d".data) "click".data none
        "Step".data).attempts.length
        ≤ min MAX_FALLBACKS ((pathSegments "//a/b/c/d".data).length - 1) + 1 ∧
      (tryLocateAndAct failOracle ("xpath=".data ++ "//a/b/c/d".data) "click".data none
        "Step".data).result ≠ ExecResult.ok :=
  attempts_bounded_all_fail failOracle "//a/b/c/d".data "click".data none "Step".data
    (fun _ => rfl) (fun _ => rfl) (Or.inl rfl)

/-- C2 (code evidence): for the 4-step locator `xpath=//a/b/c/d` with
every attempt failing, the code makes 4 attempts (1 initial plus 3
fallbacks) and then raises the final "failed unexpectedly" safeguard of
line 110 — not the fallback-exhaustion error carrying the attempt count
that the claim (and the comment on line 109) expect. The exhaustion
error of lines 105-107 fires only when the loop counter reaches
`MAX_FALLBACKS = 50`, which cannot happen for a 4-step locator. -/
theorem four_step_all_fail_hits_safeguard :
    tryLocateAndAct failOracle "xpath=//a/b/c/d".data "click".data none "s".data =
      { attempts := ["xpath=//a/b/c/d".data, "xpath=//b/c/d".data, "xpath=//c/d".data,
          "xpath=//d".data],
        ops := [Op.click "xpath=//a/b/c/d".data INITIAL_TIMEOUT,
          Op.click "xpath=//b/c/d".data FALLBACK_TIMEOUT,
          Op.click "xpath=//c/d".data FALLBACK_TIMEOUT,
          Op.click "xpath=//d".data FALLBACK_TIMEOUT],
        result := ExecResult.errUnexpected "click".data "xpath=//a/b/c/d".data "s".data } := by
  decide

/-- C3: a locator without the `xpath=` marker whose initial attempt
fails makes exactly one attempt and fails immediately with the
non-XPath error carrying the action, selector and step label; no
fallback attempt is performed. -/
theorem non_xpath_single_attempt (o : Oracle) (sel action : Str) (text : Option Str)
    (si : Str) (hx : List.isPrefixOf "xpath=".data sel = false)
    (hinit : (initialAttempt o sel action text).2 = false) :
    tryLocateAndAct o sel action text si =
      { attempts := [sel], ops := (initialAttempt o sel action text).1,
        result := ExecResult.errNonXpath action sel si } := by
  have hx' : List.isPrefixOf ['x', 'p', 'a', 't', 'h', '='] sel = false := by
    simpa using hx
  simp [tryLocateAndAct, hinit, hx']

/-- Witness for C3 at the CSS-style locator `css=button`. -/
theorem non_xpath_single_attempt_witness :
    tryLocateAndAct failOracle "css=button".data "click".data none [] =
      { attempts := ["css=button".data],
        ops := [Op.click "css=button".data INITIAL_TIMEOUT],
        result := ExecResult.errNonXpath "click".data "css=button".data [] } :=
  (non_xpath_single_attempt failOracle "css=button".data "click".data none []
      (by decide) (by decide)).trans (by decide)

/-- C4: with every attempt failing, the attempt trace is the original
selector followed by, for `i = 1, 2, ...` in strictly increasing order
of the number `i` of dropped leading segments, the selector made of the
search-anywhere anchor `xpath=//` and the segments from index `i`
onward; each fallback keeps the remaining segments in their original
relative order (a sublist of the original segment list). -/
theorem fallback_trace_increasing (o : Oracle) (p action : Str) (text : Option Str) (si : Str)
    (hc : ∀ s, o.click s = false) (hf : ∀ s, o.fill s = false)
    (hact : action = "click".data ∨ (action = "fill".data ∧ text.isSome = true)) :
    (tryLocateAndAct o ("xpath=".data ++ p) action text si).attempts
        = ("xpath=".data ++ p)
          :: (List.range' 1 (min MAX_FALLBACKS ((pathSegments p).length - 1))).map
              (fun i => "xpath=//".data ++ List.intercalate ['/'] ((pathSegments p).drop i)) ∧
      ∀ i, List.Sublist ((pathSegments p).drop i) (pathSegments p) := by
  refine ⟨?_, fun i => List.drop_sublist i (pathSegments p)⟩
  have hinit := initialAttempt_fail_of_oracle o ("xpath=".data ++ p) action text hc hf
  rw [tryLocateAndAct_xpath_fail o p action text si hinit]
  have hmin : min (MAX_FALLBACKS + 1) (pathSegments p).length - 1
      = min MAX_FALLBACKS ((pathSegments p).length - 1) := by
    simp only [MAX_FALLBACKS]
    omega
  have htr := fallbackLoop_trace o action text (pathSegments p) ("xpath=".data ++ p) si
    (fallbackAttempt_fail_of_oracle o action text hc hf hact)
    (min (MAX_FALLBACKS + 1) (pathSegments p).length - 1) 1
    (by simp only [MAX_FALLBACKS]; omega)
  rw [htr, hmin]

/-- Witness for C4 at `xpath=//a/b/c/d` with the always-fail oracle: the
trace drops one more leading segment at each fallback attempt. -/
theorem fallback_trace_increasing_witness :
    (tryLocateAndAct failOracle ("xpath=".data ++ "//a/b/c/d".data) "click".data none
        []).attempts
      = [("xpath=".data ++ "//a/b/c/d".data), "xpath=//b/c/d".data, "xpath=//c/d".data,
          "xpath=//d".data] :=
  ((fallback_trace_increasing failOracle "//a/b/c/d".data "click".data none []
      (fun _ => rfl) (fun _ => rfl) (Or.inl rfl)).1).trans (by decide)

/-- C5 (counterexample): the relative path-style locator `xpath=a/b` is
not an absolute path-style selector in the spec's sense, yet after its
initial attempt fails the executor does not fail immediately: it
performs a fallback retry (2 attempts in total), refuting the claim
that every locator other than an absolute path-style one fails with no
retry. -/
theorem relative_xpath_gets_retry :
    specAbsolutePathStyle "xpath=a/b".data = false ∧
      (tryLocateAndAct failOracle "xpath=a/b".data "click".data none []).attempts.length
        = 2 := by
  decide

/-- C5 (amended): the fallback gate is the `xpath=` marker, not
absoluteness. A locator without the marker fails immediately with no
retry after its initial attempt fails, while any locator with the
marker whose path has at least two non-empty segments is retried (at
least one fallback attempt), whether its path is absolute or not. -/
theorem fallback_gate_is_xpath_marker (o : Oracle) (sel action : Str) (text : Option Str)
    (si : Str) (hinit : (initialAttempt o sel action text).2 = false) :
    (List.isPrefixOf "xpath=".data sel = false →
        (tryLocateAndAct o sel action text si).attempts = [sel]) ∧
      ∀ p, sel = "xpath=".data ++ p → 2 ≤ (pathSegments p).length →
        2 ≤ (tryLocateAndAct o sel action text si).attempts.length := by
  constructor
  · intro hx
    have hx' : List.isPrefixOf ['x', 'p', 'a', 't', 'h', '='] sel = false := by
      simpa using hx
    simp [tryLocateAndAct, hinit, hx']
  · intro p hp hk
    subst hp
    obtain ⟨f, hfuel⟩ : ∃ f, min (MAX_FALLBACKS + 1) (pathSegments p).length - 1 = f + 1 :=
      ⟨min (MAX_FALLBACKS + 1) (pathSegments p).length - 2, by
        simp only [MAX_FALLBACKS]
        omega⟩
    have h2 : (tryLocateAndAct o ("xpath=".data ++ p) action text si).attempts.length
        = (fallbackLoop o action text (pathSegments p) ("xpath=".data ++ p) si 1
            (min (MAX_FALLBACKS + 1) (pathSegments p).length - 1)).1.length + 1 := by
      rw [tryLocateAndAct_xpath_fail o p action text si hinit]
      rfl
    rw [h2, hfuel]
    exact Nat.succ_le_succ
      (fallbackLoop_ne_nil o action text (pathSegments p) ("xpath=".data ++ p) si f 1)

/-- Witness for the amended C5: `css=div` fails with a single attempt,
while the relative `xpath=a/b/c` is retried. -/
theorem fallback_gate_is_xpath_marker_witness :
    (tryLocateAndAct failOracle "css=div".data "click".data none []).attempts
        = ["css=div".data] ∧
      2 ≤ (tryLocateAndAct failOracle ("xpath=".data ++ "a/b/c".data) "click".data none
        []).attempts.length :=
  ⟨(fallback_gate_is_xpath_marker failOracle "css=div".data "click".data none []
        (by decide)).1 (by decide),
    (fallback_gate_is_xpath_marker failOracle ("xpath=".data ++ "a/b/c".data) "click".data
        none [] (by decide)).2 "a/b/c".data rfl (by decide)⟩

/-- C6 (amended): substitution is idempotent for every text and mapping
whose once-substituted text contains no remaining recognized
placeholder (in particular whenever no mapped value introduces one);
the scenario `<secret>CITY</secret>` with the mapping sending `CITY` to
`Ottawa` resolves to `Ottawa`; and a tag whose name is not in the
mapping is left verbatim. The unconditional idempotence stated by the
claim is refuted separately. -/
theorem substitution_idempotent_when_stable :
    (∀ (t : Str) (m : List (Str × Option Str)),
        (∀ kv ∈ m, occursIn (mkPattern kv.1) (replace_sensitive_data t m) = false) →
        replace_sensitive_data (replace_sensitive_data t m) m = replace_sensitive_data t m) ∧
      replace_sensitive_data "<secret>CITY</secret>".data [("CITY".data, some "Ottawa".data)]
        = "Ottawa".data ∧
      replace_sensitive_data "<secret>ZIP</secret>".data [("CITY".data, some "Ottawa".data)]
        = "<secret>ZIP</secret>".data := by
  refine ⟨fun t m h => replace_sensitive_data_fixed m (replace_sensitive_data t m) h, ?_, ?_⟩
  · decide
  · decide

/-- Witness for the amended C6 theorem at the specification's scenario
input: substituting twice equals substituting once for the text
`<secret>CITY</secret>` under the mapping sending `CITY` to `Ottawa`. -/
theorem substitution_idempotent_when_stable_witness :
    replace_sensitive_data
        (replace_sensitive_data "<secret>CITY</secret>".data
          [("CITY".data, some "Ottawa".data)])
        [("CITY".data, some "Ottawa".data)]
      = replace_sensitive_data "<secret>CITY</secret>".data
          [("CITY".data, some "Ottawa".data)] :=
  substitution_idempotent_when_stable.1 "<secret>CITY</secret>".data
    [("CITY".data, some "Ottawa".data)] (by decide)

/-- C6 (counterexample): substitution is not idempotent over every input
text and mapping. With the mapping that sends `B` to `y` and `A` to
`<secret>B</secret>` (in that iteration order), the text
`<secret>A</secret>` substitutes once to `<secret>B</secret>` but twice
to `y`. -/
theorem substitution_not_idempotent :
    replace_sensitive_data
        (replace_sensitive_data "<secret>A</secret>".data
          [("B".data, some "y".data), ("A".data, some "<secret>B</secret>".data)])
        [("B".data, some "y".data), ("A".data, some "<secret>B</secret>".data)]
      ≠ replace_sensitive_data "<secret>A</secret>".data
          [("B".data, some "y".data), ("A".data, some "<secret>B</secret>".data)] := by
  decide

/-- C7: for the 4-step locator `xpath=//a/b/c/d`, when the initial
attempt fails and the trim-level-1 fallback selector `xpath=//b/c/d`
succeeds, the executor makes exactly 2 attempts, performs the two
clicks and the 500 ms settle wait, and returns success. -/
theorem four_step_level_one_success :
    tryLocateAndAct levelOneOracle "xpath=//a/b/c/d".data "click".data none [] =
      { attempts := ["xpath=//a/b/c/d".data, "xpath=//b/c/d".data],
        ops := [Op.click "xpath=//a/b/c/d".data INITIAL_TIMEOUT,
          Op.click "xpath=//b/c/d".data FALLBACK_TIMEOUT, Op.wait 500],
        result := ExecResult.ok } := by
  decide

/-- C8: on every execution, both cleanup closes are attempted and their
failures never propagate; the exit code is 0 exactly when every action
succeeds (non-zero on any action failure or unexpected error); and a
failed action aborts the remainder: when the script is an
all-successful prefix followed by a failing action, exactly the prefix
and that action are attempted. -/
theorem script_cleanup_abort_exit (steps : List StepOutcome) (cf bf : Bool) :
    (run_generated_script steps cf bf).ctxCloseAttempted = true ∧
      (run_generated_script steps cf bf).browserCloseAttempted = true ∧
      (run_generated_script steps cf bf).cleanupErrorPropagated = false ∧
      ((run_generated_script steps cf bf).exitCode = 0 ↔ ∀ s ∈ steps, s = StepOutcome.ok) ∧
      ∀ pre bad post, steps = pre ++ bad :: post → (∀ s ∈ pre, s = StepOutcome.ok) →
        bad ≠ StepOutcome.ok →
        (run_generated_script steps cf bf).stepsAttempted = pre.length + 1 := by
  refine ⟨rfl, rfl, rfl, ?_, ?_⟩
  · have h1 : (run_generated_script steps cf bf).exitCode = 0 ↔ (runBody steps).2 = none := by
      simp only [run_generated_script]
      rcases h : (runBody steps).2 with _ | s <;> simp [h]
    rw [h1, runBody_none_iff]
  · intro pre bad post hsteps hpre hbad
    subst hsteps
    simp only [run_generated_script, runBody_first_fail pre bad post hpre hbad]

/-- Witness for C8: the script `[ok, actionError, ok]` with a failing
context close attempts exactly 2 actions. -/
theorem script_cleanup_abort_exit_witness :
    (run_generated_script [StepOutcome.ok, StepOutcome.actionError, StepOutcome.ok] true
        false).stepsAttempted = 2 :=
  (script_cleanup_abort_exit [StepOutcome.ok, StepOutcome.actionError, StepOutcome.ok] true
      false).2.2.2.2 [StepOutcome.ok] StepOutcome.actionError [StepOutcome.ok] rfl
    (by decide) (by decide)

/-- C9: for an `xpath=` locator whose path has at least two non-empty
segments and an action kind that is neither `click` nor `fill` with a
text, the invalid-action error raised in the initial attempt is caught,
and the first fallback iteration returns success while performing no
click, clear or fill on the document: the log records 2 attempts, only
the 500 ms settle wait, and a successful result. -/
theorem invalid_action_spurious_success (o : Oracle) (p action : Str) (text : Option Str)
    (si : Str) (hclick : action ≠ "click".data) (hfill : action = "fill".data → text = none)
    (hk : 2 ≤ (pathSegments p).length) :
    tryLocateAndAct o ("xpath=".data ++ p) action text si =
      { attempts := ["xpath=".data ++ p,
          "xpath=//".data ++ List.intercalate ['/'] ((pathSegments p).drop 1)],
        ops := [Op.wait 500], result := ExecResult.ok } := by
  have hinit := initialAttempt_invalid o ("xpath=".data ++ p) action text hclick hfill
  rw [tryLocateAndAct_xpath_fail o p action text si (by rw [hinit])]
  obtain ⟨f, hfuel⟩ : ∃ f, min (MAX_FALLBACKS + 1) (pathSegments p).length - 1 = f + 1 :=
    ⟨min (MAX_FALLBACKS + 1) (pathSegments p).length - 2, by
      simp only [MAX_FALLBACKS]
      omega⟩
  rw [hfuel, fallbackLoop_invalid_action o action text (pathSegments p) ("xpath=".data ++ p)
    si f 1 (fallbackAttempt_invalid o action text hclick hfill), hinit]
  rfl

/-- Witness for C9 at the locator `xpath=//a/b` with the unknown action
kind `hover`. -/
theorem invalid_action_spurious_success_witness :
    tryLocateAndAct failOracle ("xpath=".data ++ "//a/b".data) "hover".data none [] =
      { attempts := ["xpath=".data ++ "//a/b".data,
          "xpath=//".data ++ List.intercalate ['/'] ((pathSegments "//a/b".data).drop 1)],
        ops := [Op.wait 500], result := ExecResult.ok } :=
  invalid_action_spurious_success failOracle "//a/b".data "hover".data none []
    (by decide) (fun _ => rfl) (by decide)

/-- C10: for an `xpath=` locator whose path has at most one non-empty
segment, a failed initial attempt leads to zero fallback attempts and
the safeguard error of line 110 ("failed unexpectedly") rather than the
fallback-exhaustion error — the comment on line 109 notwithstanding,
that path is reachable. -/
theorem short_xpath_hits_safeguard (o : Oracle) (p action : Str) (text : Option Str)
    (si : Str) (hinit : (initialAttempt o ("xpath=".data ++ p) action text).2 = false)
    (hk : (pathSegments p).length ≤ 1) :
    tryLocateAndAct o ("xpath=".data ++ p) action text si =
      { attempts := ["xpath=".data ++ p],
        ops := (initialAttempt o ("xpath=".data ++ p) action text).1,
        result := ExecResult.errUnexpected action ("xpath=".data ++ p) si } := by
  rw [tryLocateAndAct_xpath_fail o p action text si hinit]
  have hfuel : min (MAX_FALLBACKS + 1) (pathSegments p).length - 1 = 0 := by
    simp only [MAX_FALLBACKS]
    omega
  rw [hfuel]
  simp [fallbackLoop]

/-- Witness for C10 at the single-segment locator `xpath=//input`. -/
theorem short_xpath_hits_safeguard_witness :
    tryLocateAndAct failOracle ("xpath=".data ++ "//input".data) "click".data none [] =
      { attempts := ["xpath=".data ++ "//input".data],
        ops := (initialAttempt failOracle ("xpath=".data ++ "//input".data) "click".data
          none).1,
        result := ExecResult.errUnexpected "click".data ("xpath=".data ++ "//input".data)
          [] } :=
  short_xpath_hits_safeguard failOracle "//input".data "click".data none [] (by decide)
    (by decide)

end RealtorScript
